import Mathlib

set_option maxRecDepth 8000

/-!
# Verification of the penko-tune audio signal-processing graph and visualizer

Shallow embedding of the player's audio-graph wiring (`initAudioContext`,
`toggleKaraokeMode`, `handleEQChange`) and of the visualizer's per-frame
pipeline (`Visualizer.tsx`): temporal smoothing, per-mode scene construction,
frame-suspension logic, and frequency-bin index computations.

Numbers that are JavaScript `number`s are modelled as rationals (`ℚ`);
machine indices as `ℕ`/`ℤ`.  Opaque transcendental functions (`Math.cos`,
`Math.sin`, `Math.sqrt`) are passed as parameters so that every definition
stays executable.
-/

namespace PenkoTune

/-! ## EQ data model (`types.ts`, `part_002`) -/

/-- Interface `EQBand` from `types.ts`: `{ frequency: number, gain: number }`. -/
structure EQBand where
  frequency : ℚ
  gain : ℚ
deriving DecidableEq, Repr

/-- Constant `EQ_FREQUENCIES` from `part_002` line 382. -/
def EQ_FREQUENCIES : List ℚ := [60, 170, 310, 600, 1000, 3000, 6000, 12000, 14000, 16000]

/-- The EQ-relevant state of the player: `eqBands` (React state) and the
`gain.value` parameters of the live `BiquadFilterNode`s in `eqNodesRef`. -/
structure EQState where
  bands : List EQBand
  nodes : List ℚ
deriving DecidableEq, Repr

/-- The state after `initAudioContext` with no saved settings:
`eqBands = EQ_FREQUENCIES.map(f => ({frequency: f, gain: 0}))` and every live
filter built with `filter.gain.value = 0`. -/
def initEQState : EQState :=
  { bands := EQ_FREQUENCIES.map (fun f => { frequency := f, gain := 0 })
  , nodes := EQ_FREQUENCIES.map (fun _ => 0) }

/-- Helper for the mutation `next[index].gain = value` inside the
`setEqBands` updater. -/
def setGainAt : List EQBand → ℕ → ℚ → List EQBand
  | [], _, _ => []
  | b :: bs, 0, v => { b with gain := v } :: bs
  | b :: bs, n + 1, v => b :: setGainAt bs n v

/-- Handler `handleEQChange(index, value)` from `part_002` lines 1470–1479:
the `setEqBands` updater copies the array and runs `next[index].gain = value`,
which throws a `TypeError` when `next[index]` is `undefined` (out-of-range
index); the live node update `eqNodesRef.current[index].gain.value = value`
is guarded by a truthiness check on `eqNodesRef.current[index]`.  No clamping
is performed anywhere in the function. -/
def handleEQChange (st : EQState) (index : ℤ) (value : ℚ) : Except String EQState :=
  if 0 ≤ index ∧ index.toNat < st.bands.length then
    let i := index.toNat
    let bands' := setGainAt st.bands i value
    let nodes' := if i < st.nodes.length then st.nodes.set i value else st.nodes
    .ok { bands := bands', nodes := nodes' }
  else
    .error "TypeError: cannot set property gain of undefined"

/-- Stored gain of band `i` (state read of `eqBands[i].gain`). -/
def storedGain (st : EQState) (i : ℕ) : Option ℚ :=
  (st.bands[i]?).map EQBand.gain

/-- Live filter gain of band `i` (read of `eqNodesRef.current[i].gain.value`). -/
def liveGain (st : EQState) (i : ℕ) : Option ℚ :=
  st.nodes[i]?

/-! ## Audio graph topology (`initAudioContext`, `toggleKaraokeMode`) -/

/-- The audio nodes allocated in `initAudioContext`. -/
inductive ANode
  | source
  | eq (i : ℕ)
  | analyserN
  | splitter
  | merger
  | invertGain
  | destination
deriving DecidableEq, Repr

/-- One `connect(dst, output, input)` edge of the Web Audio graph.
`connect(dst)` defaults both indices to 0. -/
structure Edge where
  src : ANode
  srcOutput : ℕ
  dst : ANode
  dstInput : ℕ
deriving DecidableEq, Repr

/-- Plain `a.connect(b)`. -/
def conn (a b : ANode) : Edge := ⟨a, 0, b, 0⟩

/-- The EQ chain wiring `source → eq0 → … → eq9` built by
`bands.forEach(node => { previousNode.connect(node); previousNode = node })`,
returning the final `previousNode` and the accumulated edges. -/
def eqChainFold : ANode × List Edge :=
  (List.range 10).foldl
    (fun acc i => (ANode.eq i, acc.2 ++ [conn acc.1 (ANode.eq i)]))
    (ANode.source, [])

/-- Flat topology built at the end of `initAudioContext` (lines 536–545) and
in the `else` branch of `toggleKaraokeMode`:
`source → EQ chain → analyser → destination`. -/
def flatEdges : List Edge :=
  eqChainFold.2 ++ [conn eqChainFold.1 ANode.analyserN, conn ANode.analyserN ANode.destination]

/-- Karaoke topology from `toggleKaraokeMode` (lines 578–593): EQ chain into
the splitter, then the six splitter/invertGain/merger connects written in the
source, then `merger → analyser → destination`. -/
def karaokeEdges : List Edge :=
  eqChainFold.2 ++
    [ conn eqChainFold.1 ANode.splitter
    , ⟨ANode.splitter, 0, ANode.merger, 0⟩      -- Left channel to left output
    , ⟨ANode.splitter, 1, ANode.invertGain, 0⟩  -- Right channel to inverter
    , ⟨ANode.invertGain, 0, ANode.merger, 0⟩    -- Inverted right to left
    , ⟨ANode.splitter, 1, ANode.merger, 1⟩      -- Right channel to right output
    , ⟨ANode.splitter, 0, ANode.invertGain, 0⟩  -- Left channel to inverter
    , ⟨ANode.invertGain, 0, ANode.merger, 1⟩    -- Inverted left to right
    , conn ANode.merger ANode.analyserN
    , conn ANode.analyserN ANode.destination ]

/-- The graph-level player state: the `karaokeMode` flag plus the live set of
connections. -/
structure GraphState where
  karaokeMode : Bool
  edges : List Edge
deriving DecidableEq, Repr

/-- State right after `initAudioContext`: flat topology, `karaokeMode: false`. -/
def initGraphState : GraphState := { karaokeMode := false, edges := flatEdges }

/-- The nodes on which `toggleKaraokeMode` calls `.disconnect()`:
`source`, every EQ node, `analyser`, `splitter`, `merger`, `invertGain`. -/
def disconnectedNodes : List ANode :=
  ANode.source :: (List.range 10).map ANode.eq ++
    [ANode.analyserN, ANode.splitter, ANode.merger, ANode.invertGain]

/-- Function `toggleKaraokeMode` from `part_002` lines 552–606: disconnect every edge
leaving the listed nodes, flip the flag, and wire either the karaoke or the
flat topology. -/
def toggleKaraokeMode (st : GraphState) : GraphState :=
  let remaining := st.edges.filter (fun e => ¬ disconnectedNodes.contains e.src)
  let newKaraokeMode := !st.karaokeMode
  { karaokeMode := newKaraokeMode
  , edges := remaining ++ (if newKaraokeMode then karaokeEdges else flatEdges) }

/-! ### Signal semantics of the karaoke subgraph

The EQ chain is linear and channel-preserving, so let `L`/`R` denote the two
channels of the signal entering the splitter.  The splitter's output `0`
carries `L` and output `1` carries `R`; a `GainNode` sums everything wired
into its single input and multiplies by its gain (`invertGain.gain.value = -1`);
a `ChannelMergerNode` input sums everything wired into it. -/

/-- Splitter output `o`: channel `L` for output 0, `R` for output 1. -/
def splitterOut (L R : ℚ) (o : ℕ) : ℚ := if o = 0 then L else R

/-- Sum of the signals wired into `invertGain`'s input, for a given edge set. -/
def invertGainIn (edges : List Edge) (L R : ℚ) : ℚ :=
  ((edges.filter (fun e => e.dst = ANode.invertGain)).map
    (fun e => match e.src with
      | ANode.splitter => splitterOut L R e.srcOutput
      | _ => 0)).sum

/-- Output of the `invertGain` node (`gain.value = -1`). -/
def invertGainOut (edges : List Edge) (L R : ℚ) : ℚ :=
  (-1) * invertGainIn edges L R

/-- Signal arriving at merger input `c` (channel `c` of the merged output):
the sum over all edges into that input of the source node's output signal. -/
def mergerIn (edges : List Edge) (L R : ℚ) (c : ℕ) : ℚ :=
  ((edges.filter (fun e => e.dst = ANode.merger ∧ e.dstInput = c)).map
    (fun e => match e.src with
      | ANode.splitter => splitterOut L R e.srcOutput
      | ANode.invertGain => invertGainOut edges L R
      | _ => 0)).sum

/-! ## Visualizer (`Visualizer.tsx`) -/

/-- Enumeration `VisualizerMode` from `types.ts`. -/
inductive VisualizerMode
  | BARS | WAVE | CIRCLE | SPIRAL | PARTICLES | SPECTRUM | RINGS | DNA
deriving DecidableEq, Repr

/-- A JS read `smoothData[i]`.  `getD` yields `0` past the end, which is
exactly the RINGS mode's `smoothData[freqStart + j] || 0`; for the other
modes the C10 theorem shows every read is in-bounds at the configured
512-bin resolution, making the default irrelevant there. -/
def readBin (data : List ℚ) (i : ℕ) : ℚ := data.getD i 0

/-- Model of `Math.floor` on the non-negative quantities used in the index math. -/
def jsFloor (q : ℚ) : ℕ := (⌊q⌋).toNat

/-- Mode-dependent smoothing factor (lines 58–60): default `0.3`,
`0.8` for SPIRAL, `0.5` for WAVE. -/
def smoothingFactor (mode : VisualizerMode) : ℚ :=
  if mode = VisualizerMode.SPIRAL then 8/10
  else if mode = VisualizerMode.WAVE then 5/10
  else 3/10

/-- Lines 36–38: `if (prevDataRef.current.length !== bufferLength)
prevDataRef.current = new Float32Array(bufferLength).fill(0)`. -/
def ensureBuffer (prev : List ℚ) (bufferLength : ℕ) : List ℚ :=
  if prev.length ≠ bufferLength then List.replicate bufferLength 0 else prev

/-- The per-frame exponential-moving-average update (lines 62–68):
`target = isPlaying ? dataArray[i] : 0;
prev[i] += (target - prev[i]) * smoothingFactor`, looping `i` over the buffer
length (which equals `prev.length` after `ensureBuffer`). -/
def smoothFrame (alpha : ℚ) (isPlaying : Bool) (prev data : List ℚ) : List ℚ :=
  (List.range prev.length).map (fun i =>
    let target : ℚ := if isPlaying then readBin data i else 0
    readBin prev i + (target - readBin prev i) * alpha)

/-- Iterating `n` frames of the smoothing loop under sustained silence
(`isPlaying = false`, so the target is `0` and the snapshot is ignored). -/
def iterSilent (alpha : ℚ) : ℕ → List ℚ → List ℚ
  | 0, prev => prev
  | n + 1, prev => iterSilent alpha n (smoothFrame alpha false prev [])

/-- The head of `renderFrame` (lines 46–51) together with the tail
(line 544): when the early-return guard fires the pending frame is cancelled
and `requestAnimationFrame` is never reached, otherwise a next tick is
scheduled.  Returns whether the loop keeps ticking. -/
def frameContinues (isPlaying : Bool) (mode : VisualizerMode) : Bool :=
  if !isPlaying ∧ mode ≠ VisualizerMode.CIRCLE ∧ mode ≠ VisualizerMode.SPIRAL ∧
      mode ≠ VisualizerMode.WAVE then
    (if !isPlaying then false else true)
  else true

/-! ## Render-mode scene construction

Each mode's d3 data join creates exactly one drawable primitive per datum, so
the per-frame primitive count is the length of the data array the mode
builds.  Colour interpolator calls (`d3.interpolateCool` etc.) are recorded
by their numeric argument. -/

/-- A `{ val, idx }` datum of the BARS / SPECTRUM / CIRCLE joins. -/
structure BarDatum where
  val : ℚ
  idx : ℕ
deriving DecidableEq, Repr

/-- BARS (lines 75–84): 64 buckets over the low 70% of the bins, each datum
averaging `step` consecutive smoothed bins. -/
def barsVisualData (data : List ℚ) : List BarDatum :=
  let step := jsFloor (((data.length : ℚ) * (7/10)) / 64)
  (List.range 64).map (fun i =>
    { val := (((List.range step).map (fun j => readBin data (i * step + j))).sum) / (step : ℚ)
    , idx := i * step })

/-- SPECTRUM (lines 358–368): 96 buckets over the low 80% of the bins. -/
def spectrumVisualData (data : List ℚ) : List BarDatum :=
  let step := jsFloor (((data.length : ℚ) * (8/10)) / 96)
  (List.range 96).map (fun i =>
    { val := (((List.range step).map (fun j => readBin data (i * step + j))).sum) / (step : ℚ)
    , idx := i * step })

/-- CIRCLE (lines 217–236): `radiusInner = min(width, height) / 4.5`. -/
def circleRadiusInner (w h : ℚ) : ℚ := min w h / (45/10)

/-- CIRCLE: average of the first 10 smoothed bins. -/
def circleBassAvg (data : List ℚ) : ℚ :=
  (((List.range 10).map (fun i => readBin data i)).sum) / 10

/-- CIRCLE: `currentRadius = radiusInner + (bassAvg / 255) * 15`. -/
def circleCurrentRadius (data : List ℚ) (w h : ℚ) : ℚ :=
  circleRadiusInner w h + (circleBassAvg data / 255) * 15

/-- CIRCLE: the core circle is rendered with `r = currentRadius * 0.9`. -/
def circleCoreRadius (data : List ℚ) (w h : ℚ) : ℚ :=
  circleCurrentRadius data w h * (9/10)

/-- CIRCLE: the 80 radial-bar data, mirrored half-way for symmetry. -/
def circleVisualData (data : List ℚ) : List BarDatum :=
  let step := jsFloor (((data.length : ℚ) * (6/10)) / 80)
  (List.range 80).map (fun i =>
    let spectrumIndex := if i < 40 then i * step else (79 - i) * step
    { val := readBin data spectrumIndex, idx := spectrumIndex })

/-- One point of the SPIRAL dual vortex. -/
structure SpiralPoint where
  i : ℕ
  val : ℚ
  x : ℚ
  y : ℚ
  colorT : ℚ
  cool : Bool
  r : ℚ
  opacity : ℚ
deriving DecidableEq, Repr

/-- SPIRAL (lines 272–303): 350 iterations each pushing one point per
vortex; golden angle `2.39996`, wrapped bin lookup `i % freqRange` with
`freqRange = floor(bufferLength * 0.5)`. -/
def spiralData (cosF sinF sqrtF : ℚ → ℚ) (data : List ℚ) (time w h : ℚ) : List SpiralPoint :=
  let freqRange := jsFloor ((data.length : ℚ) * (5/10))
  let spacing := min w h / 30
  (List.range 350).flatMap (fun (i : ℕ) =>
    let val := readBin data (i % freqRange)
    [ { i := i, val := val
      , x := w/2 + spacing * sqrtF i * cosF ((i : ℚ) * (239996/100000) + time * (2/10))
      , y := h/2 + spacing * sqrtF i * sinF ((i : ℚ) * (239996/100000) + time * (2/10))
      , colorT := (i : ℚ) / 350, cool := true
      , r := 2 + (val / 255) * 8, opacity := 4/10 + val / 512 }
    , { i := i, val := val
      , x := w/2 + spacing * sqrtF i * cosF (-((i : ℚ) * (239996/100000)) - time * (3/10))
      , y := h/2 + spacing * sqrtF i * sinF (-((i : ℚ) * (239996/100000)) - time * (3/10))
      , colorT := (i : ℚ) / 350, cool := false
      , r := 2 + (val / 255) * 6, opacity := 4/10 + val / 512 } ])

/-- One PARTICLES point. -/
structure Particle where
  x : ℚ
  y : ℚ
  r : ℚ
  colorIdx : ℕ
  opacity : ℚ
deriving DecidableEq, Repr

/-- PARTICLES (lines 322–325): the overall-energy accumulator over the first
50 bins (computed each frame; not consumed by the per-particle math). -/
def particlesTotalEnergy (data : List ℚ) : ℚ :=
  (((List.range 50).map (fun i => readBin data i)).sum) / 50 / 255

/-- PARTICLES (lines 317–345): 150 points, each driven by
`freqIndex = floor((i / 150) * bufferLength * 0.6)`. -/
def particlesData (sinF : ℚ → ℚ) (data : List ℚ) (time w h : ℚ) : List Particle :=
  (List.range 150).map (fun (i : ℕ) =>
    let freqIndex := jsFloor (((i : ℚ) / 150) * (data.length : ℚ) * (6/10))
    let val := readBin data freqIndex
    let energy := val / 255
    let baseX := ((i : ℚ) / 150) * w
    let waveOffset := sinF (time * 2 + (i : ℚ) * (1/10)) * 50 * energy
    { x := baseX + waveOffset
    , y := h/2 + sinF (time + (i : ℚ) * (15/100)) * (h * (3/10)) * (1/2 + energy * (1/2))
    , r := 2 + energy * 12
    , colorIdx := freqIndex
    , opacity := 3/10 + energy * (6/10) })

/-- One RINGS datum. -/
structure RingDatum where
  r : ℚ
  energy : ℚ
  colorIdx : ℕ
  index : ℕ
deriving DecidableEq, Repr

/-- RINGS (lines 423–446): 12 concentric rings; each averages a 20-bin
window starting at `floor((i / 12) * bufferLength * 0.5)`, reading
`smoothData[freqStart + j] || 0` (missing element becomes 0). -/
def ringsData (sinF : ℚ → ℚ) (data : List ℚ) (time w h : ℚ) : List RingDatum :=
  (List.range 12).map (fun (i : ℕ) =>
    let freqStart := jsFloor (((i : ℚ) / 12) * (data.length : ℚ) * (5/10))
    let ringEnergy := (((List.range 20).map (fun j => readBin data (freqStart + j))).sum) / 20 / 255
    let baseRadius := (((i : ℚ) + 1) / 12) * min w h * (45/100)
    let pulse := sinF (time * 3 + (i : ℚ) * (5/10)) * 10
    { r := baseRadius + pulse + ringEnergy * 40
    , energy := ringEnergy
    , colorIdx := freqStart
    , index := i })

/-- Discriminant of the DNA data join (`type` field in the source). -/
inductive DNAType
  | strand1 | strand2 | connector
deriving DecidableEq, Repr

/-- One DNA primitive datum (strand point or connector segment). -/
structure DNAPrim where
  ty : DNAType
  x : ℚ
  y : ℚ
  r : ℚ
  x2 : ℚ
  y2 : ℚ
  colorT : ℚ
  energy : ℚ
deriving DecidableEq, Repr

/-- DNA (lines 461–513): 120 iterations, each pushing one point per strand
plus, every 8th iteration, one connector.  `Math.PI` is the opaque constant
`piQ`. -/
def dnaData (cosF : ℚ → ℚ) (piQ : ℚ) (data : List ℚ) (time w h : ℚ) : List DNAPrim :=
  let helixRadius := min w h * (15/100)
  let helixLength := h * (8/10)
  let startY := (h - helixLength) / 2
  (List.range 120).flatMap (fun (i : ℕ) =>
    let t : ℚ := (i : ℚ) / 120
    let y := startY + t * helixLength
    let angle1 := t * piQ * 6 + time
    let angle2 := t * piQ * 6 + time + piQ
    let freqIndex := jsFloor (t * (data.length : ℚ) * (6/10))
    let val := readBin data freqIndex
    let energy := val / 255
    let x1 := w/2 + cosF angle1 * helixRadius * (1 + energy * (3/10))
    let x2 := w/2 + cosF angle2 * helixRadius * (1 + energy * (3/10))
    [ { ty := DNAType.strand1, x := x1, y := y, r := 3 + energy * 5
      , x2 := 0, y2 := 0, colorT := t, energy := energy }
    , { ty := DNAType.strand2, x := x2, y := y, r := 3 + energy * 5
      , x2 := 0, y2 := 0, colorT := t, energy := energy } ] ++
    (if i % 8 = 0 then
      [ { ty := DNAType.connector, x := x1, y := y, r := 0
        , x2 := x2, y2 := y, colorT := t, energy := energy } ]
     else []))

/-- The circles drawn for the helix strands: the filter keeping data whose type field differs from connector. -/
def dnaStrandPoints (cosF : ℚ → ℚ) (piQ : ℚ) (data : List ℚ) (time w h : ℚ) : List DNAPrim :=
  (dnaData cosF piQ data time w h).filter (fun d => d.ty ≠ DNAType.connector)

/-- The connector lines: the filter keeping data whose type field equals connector. -/
def dnaConnectors (cosF : ℚ → ℚ) (piQ : ℚ) (data : List ℚ) (time w h : ℚ) : List DNAPrim :=
  (dnaData cosF piQ data time w h).filter (fun d => d.ty = DNAType.connector)

/-! ## Frequency-bin index sets

For claim C10: the exact set of `smoothData` indices each mode's arithmetic
produces, as a function of the buffer length `n`.  `fftSize` is set to 1024
(line 30), so `frequencyBinCount = 512`. -/

/-- Indices read by BARS: bucket `i` reads `i*step + j` for `j < step`. -/
def barsIndices (n : ℕ) : List ℕ :=
  let step := jsFloor (((n : ℚ) * (7/10)) / 64)
  (List.range 64).flatMap (fun i => (List.range step).map (fun j => i * step + j))

/-- Indices read by SPECTRUM. -/
def spectrumIndices (n : ℕ) : List ℕ :=
  let step := jsFloor (((n : ℚ) * (8/10)) / 96)
  (List.range 96).flatMap (fun i => (List.range step).map (fun j => i * step + j))

/-- Indices read by CIRCLE: the 10 bass bins plus the 80 mirrored bar bins. -/
def circleIndices (n : ℕ) : List ℕ :=
  let step := jsFloor (((n : ℚ) * (6/10)) / 80)
  List.range 10 ++
    (List.range 80).map (fun i => if i < 40 then i * step else (79 - i) * step)

/-- Indices read by SPIRAL: `i % freqRange` with `freqRange = ⌊n/2⌋`. -/
def spiralIndices (n : ℕ) : List ℕ :=
  let freqRange := jsFloor ((n : ℚ) * (5/10))
  (List.range 350).map (fun i => i % freqRange)

/-- Indices read by PARTICLES: the 50 energy bins plus one per particle. -/
def particlesIndices (n : ℕ) : List ℕ :=
  List.range 50 ++
    (List.range 150).map (fun (i : ℕ) => jsFloor (((i : ℚ) / 150) * (n : ℚ) * (6/10)))

/-- Indices read by RINGS: a 20-bin window per ring. -/
def ringsIndices (n : ℕ) : List ℕ :=
  (List.range 12).flatMap (fun (i : ℕ) =>
    (List.range 20).map (fun j => jsFloor (((i : ℚ) / 12) * (n : ℚ) * (5/10)) + j))

/-- Indices read by DNA: one bin per helix step. -/
def dnaIndices (n : ℕ) : List ℕ :=
  (List.range 120).map (fun (i : ℕ) => jsFloor (((i : ℚ) / 120) * (n : ℚ) * (6/10)))

/-- Indices read by WAVE: the 100 energy bins plus, per petal, the
`slice(freqStart, freqStart + 80)` window (a JS `slice` clamps to the array
length, reading only existing elements). -/
def waveIndices (n : ℕ) : List ℕ :=
  List.range 100 ++
    (List.range 16).flatMap (fun (petal : ℕ) =>
      let freqStart := jsFloor (((petal : ℚ) / 16) * ((n : ℚ) * (6/10)))
      (List.range (min (freqStart + 80) n - freqStart)).map (fun j => freqStart + j))

/-- Every bin index any of the eight modes computes, at buffer length `n`. -/
def allModeIndices (n : ℕ) : List ℕ :=
  barsIndices n ++ spectrumIndices n ++ circleIndices n ++ spiralIndices n ++
    particlesIndices n ++ ringsIndices n ++ dnaIndices n ++ waveIndices n

/-! ## Helper lemmas -/

/-- On silence one smoothing step multiplies every bin by `1 - alpha`. -/
theorem smoothFrame_silent (alpha : ℚ) (prev data : List ℚ) :
    smoothFrame alpha false prev data = prev.map (fun p => p * (1 - alpha)) := by
  apply List.ext_getElem
  · simp [smoothFrame]
  · intro i h1 h2
    simp only [smoothFrame, List.getElem_map, List.getElem_range, readBin]
    rw [List.getD_eq_getElem _ _ (by simpa [smoothFrame] using h2)]
    simp only [Bool.false_eq_true, if_false]
    ring

/-- Iterated silence is geometric decay with ratio `1 - alpha`. -/
theorem iterSilent_geometric (alpha : ℚ) (n : ℕ) (prev : List ℚ) :
    iterSilent alpha n prev = prev.map (fun p => p * (1 - alpha) ^ n) := by
  induction n generalizing prev with
  | zero => simp [iterSilent]
  | succ m ih =>
    rw [iterSilent, smoothFrame_silent, ih, List.map_map]
    apply List.map_congr_left
    intro p _
    simp only [Function.comp_apply]
    ring

/-- Reading back the gain written by `setGainAt`. -/
theorem getElem?_setGainAt (l : List EQBand) (i : ℕ) (v : ℚ) (h : i < l.length) :
    ((setGainAt l i v)[i]?).map EQBand.gain = some v := by
  induction l generalizing i with
  | nil => simp at h
  | cons b bs ih =>
    cases i with
    | zero => simp [setGainAt]
    | succ n =>
      simp only [setGainAt, List.getElem?_cons_succ]
      exact ih n (by simpa using h)

/-- Length of a `flatMap` whose blocks all have the same length. -/
theorem length_flatMap_const {α β : Type} (l : List α) (f : α → List β) (k : ℕ)
    (h : ∀ a ∈ l, (f a).length = k) : (l.flatMap f).length = l.length * k := by
  induction l with
  | nil => simp
  | cons a as ih =>
    rw [List.flatMap_cons, List.length_append, h a (List.mem_cons_self a as),
      ih (fun b hb => h b (List.mem_cons_of_mem a hb)), List.length_cons]
    ring

/-- `Math.floor` of a value below a positive `m` stays below `m`. -/
theorem jsFloor_lt {q : ℚ} {m : ℕ} (h : q < (m : ℚ)) (hm : 0 < m) : jsFloor q < m := by
  have h2 : ⌊q⌋ < (m : ℤ) := Int.floor_lt.mpr (by exact_mod_cast h)
  rw [jsFloor]
  omega

/-- Bucketed index sets (`i * step + j`, `i < buckets`, `j < step`) stay
below any cap at least `buckets * step`. -/
theorem bucketIndices_lt (buckets step cap : ℕ) (hcap : buckets * step ≤ cap) :
    ∀ j ∈ (List.range buckets).flatMap
      (fun i => (List.range step).map (fun jj => i * step + jj)), j < cap := by
  intro j hj
  simp only [List.mem_flatMap, List.mem_map, List.mem_range] at hj
  obtain ⟨i, hi, jj, hjj, rfl⟩ := hj
  have h1 : i + 1 ≤ buckets := hi
  have h2 : (i + 1) * step ≤ buckets * step := Nat.mul_le_mul_right step h1
  have h3 : i * step + step ≤ buckets * step := by
    calc i * step + step = (i + 1) * step := by ring
    _ ≤ buckets * step := h2
  omega

/-- The smoothing factor always takes one of the three configured values. -/
theorem smoothingFactor_eq (mode : VisualizerMode) :
    smoothingFactor mode = 3/10 ∨ smoothingFactor mode = 5/10 ∨
      smoothingFactor mode = 8/10 := by
  cases mode
  case SPIRAL => exact Or.inr (Or.inr rfl)
  case WAVE => exact Or.inr (Or.inl rfl)
  all_goals exact Or.inl rfl

/-- Any `readBin` result is in `[0, 255]` when every stored value is:
an in-range read is a member, an out-of-range read defaults to `0`. -/
theorem readBin_bounds (data : List ℚ) (h : ∀ x ∈ data, 0 ≤ x ∧ x ≤ 255) (i : ℕ) :
    0 ≤ readBin data i ∧ readBin data i ≤ 255 := by
  by_cases hi : i < data.length
  · rw [readBin, List.getD_eq_getElem _ _ hi]
    exact h _ (List.getElem_mem hi)
  · rw [readBin, List.getD_eq_default _ _ (le_of_not_lt hi)]
    norm_num

end PenkoTune

namespace PenkoTune

/-! ## Theorems for the graph and EQ claims -/

/-- C1: the claim states the karaoke topology computes `L' = L - R` and
`R' = R - L` so that center-panned content cancels.  The wired graph routes
both splitter outputs into the single shared `invertGain` node, whose output
is `-(L+R)`; the merger therefore receives `L' = L - (L+R) = -R` and
`R' = R - (L+R) = -L`.  At the center-panned input `L = R = 1` the outputs
are `-1` and `-1`: the center channel passes at full amplitude (inverted)
instead of cancelling to `0` as the code's own comments
(`"cancels center"`, `"vocal cancellation"`) require. -/
theorem C1_karaoke_cross_cancellation :
    (∀ L R : ℚ, mergerIn karaokeEdges L R 0 = -R ∧ mergerIn karaokeEdges L R 1 = -L) ∧
    mergerIn karaokeEdges 1 1 0 = -1 ∧ mergerIn karaokeEdges 1 1 1 = -1 := by
  have hfilter0 : karaokeEdges.filter (fun e => e.dst = ANode.merger ∧ e.dstInput = 0) =
      [⟨ANode.splitter, 0, ANode.merger, 0⟩, ⟨ANode.invertGain, 0, ANode.merger, 0⟩] := by
    decide
  have hfilter1 : karaokeEdges.filter (fun e => e.dst = ANode.merger ∧ e.dstInput = 1) =
      [⟨ANode.splitter, 1, ANode.merger, 1⟩, ⟨ANode.invertGain, 0, ANode.merger, 1⟩] := by
    decide
  have hinv : karaokeEdges.filter (fun e => e.dst = ANode.invertGain) =
      [⟨ANode.splitter, 1, ANode.invertGain, 0⟩, ⟨ANode.splitter, 0, ANode.invertGain, 0⟩] := by
    decide
  have key : ∀ L R : ℚ, mergerIn karaokeEdges L R 0 = -R ∧ mergerIn karaokeEdges L R 1 = -L := by
    intro L R
    constructor
    · simp only [mergerIn, hfilter0, invertGainOut, invertGainIn, hinv, splitterOut]
      norm_num
    · simp only [mergerIn, hfilter1, invertGainOut, invertGainIn, hinv, splitterOut]
      norm_num
  refine ⟨key, ?_, ?_⟩
  · simpa using (key 1 1).1
  · simpa using (key 1 1).2

/-- C3: toggling vocal cancellation twice returns the graph state (connection
set and karaoke flag) exactly to the initial flat topology, whose edges are
`source → eq0 → … → eq9 → analyser → destination` with flag `false`. -/
theorem C3_toggle_twice_restores_flat :
    toggleKaraokeMode (toggleKaraokeMode initGraphState) = initGraphState ∧
    initGraphState.karaokeMode = false ∧
    initGraphState.edges = flatEdges := by
  decide

/-- C2 counterexample: `handleEQChange(0, 20)` stores gain `20` — not the
claimed clamped value `12` — in both the React band state and the live filter
parameter. -/
theorem C2_no_clamp_counterexample :
    ((handleEQChange initEQState 0 20).toOption.bind (fun s => storedGain s 0)) = some 20 ∧
    ((handleEQChange initEQState 0 20).toOption.bind (fun s => liveGain s 0)) = some 20 ∧
    (20 : ℚ) ≠ 12 := by
  decide

/-- C2 amended: the band-gain update applies the requested gain verbatim with
no clamping (`setBandGain(0, 20)` leaves both the stored band gain and the
live filter gain at exactly `20`), while an out-of-range band index is
rejected with a caller-visible `TypeError` (the state updater's write to
`next[index].gain` throws), leaving every band unchanged. -/
theorem C2_amended_no_clamp_bad_index_throws (idx : ℤ) (v : ℚ)
    (h : idx < 0 ∨ 10 ≤ idx) :
    (∃ msg, handleEQChange initEQState idx v = .error msg) ∧
    ((handleEQChange initEQState 0 20).toOption.bind (fun s => storedGain s 0)) = some 20 ∧
    ((handleEQChange initEQState 0 20).toOption.bind (fun s => liveGain s 0)) = some 20 := by
  refine ⟨⟨"TypeError: cannot set property gain of undefined", ?_⟩, by decide, by decide⟩
  have hlen : initEQState.bands.length = 10 := by decide
  rw [handleEQChange, if_neg]
  rw [hlen]
  rcases h with h | h
  · rintro ⟨h0, -⟩
    omega
  · rintro ⟨h0, hlt⟩
    omega

/-- Closed witness for `C2_amended_no_clamp_bad_index_throws` at `idx = 10`. -/
theorem C2_amended_witness :
    (∃ msg, handleEQChange initEQState 10 0 = .error msg) ∧
    ((handleEQChange initEQState 0 20).toOption.bind (fun s => storedGain s 0)) = some 20 ∧
    ((handleEQChange initEQState 0 20).toOption.bind (fun s => liveGain s 0)) = some 20 :=
  C2_amended_no_clamp_bad_index_throws 10 0 (Or.inr (by norm_num))

/-- C9: for every gain `g ∈ [-12, 12]` and band index `i ∈ [0, 9]`, on any
initialized 10-band state, `setBandGain(i, g)` succeeds and a read-back of
both the live filter gain parameter and the stored band gain returns exactly
`g`. -/
theorem C9_set_band_gain_roundtrip (st : EQState) (g : ℚ) (i : ℕ)
    (hb : st.bands.length = 10) (hn : st.nodes.length = 10)
    (_hlo : -12 ≤ g) (_hhi : g ≤ 12) (hi : i < 10) :
    ((handleEQChange st i g).toOption.bind (fun s => liveGain s i)) = some g ∧
    ((handleEQChange st i g).toOption.bind (fun s => storedGain s i)) = some g := by
  have hcond : (0 : ℤ) ≤ (i : ℤ) ∧ ((i : ℤ)).toNat < st.bands.length := by
    refine ⟨Int.natCast_nonneg i, ?_⟩
    simpa [hb] using hi
  rw [handleEQChange, if_pos hcond]
  constructor
  · simp only [Except.toOption, Option.bind, liveGain]
    rw [if_pos (by simpa [hn] using hi)]
    simp [List.getElem?_set_self, hn, Int.toNat_natCast, hi]
  · simp only [Except.toOption, Option.bind, storedGain]
    rw [Int.toNat_natCast]
    exact getElem?_setGainAt st.bands i g (by omega)

/-- Closed witness for `C9_set_band_gain_roundtrip` at `g = -5`, `i = 9`. -/
theorem C9_witness :
    ((handleEQChange initEQState 9 (-5)).toOption.bind (fun s => liveGain s 9)) = some (-5) ∧
    ((handleEQChange initEQState 9 (-5)).toOption.bind (fun s => storedGain s 9)) = some (-5) :=
  C9_set_band_gain_roundtrip initEQState (-5) 9 (by decide) (by decide)
    (by norm_num) (by norm_num) (by norm_num)

/-! ## Theorems for the smoothing and scheduling claims -/

/-- C5: under sustained silence every smoothed bin decays geometrically with
ratio `1 - alpha` per frame; for the default `alpha = 0.3` a bin starting at
`255` is `255 · 0.7¹⁷` after 17 frames, which is strictly below `1`. -/
theorem C5_silence_geometric_decay :
    (∀ (alpha : ℚ) (n : ℕ) (prev : List ℚ),
      iterSilent alpha n prev = prev.map (fun s => s * (1 - alpha) ^ n)) ∧
    iterSilent (3/10) 17 [(255 : ℚ)] = [255 * (7/10) ^ 17] ∧
    (255 : ℚ) * (7/10) ^ 17 < 1 := by
  refine ⟨iterSilent_geometric, ?_, ?_⟩
  · rw [iterSilent_geometric]
    norm_num
  · norm_num

/-- C6: if every current smoothed value and every target snapshot value is in
`[0, 255]`, then after the EMA update every smoothed value is still in
`[0, 255]`, for each of the mode smoothing factors `0.3`, `0.5`, `0.8`; and
when the bin count changes the buffer is reallocated zero-filled with exactly
the new length, so the update loop (which runs over the buffer's own length)
reads no index out of bounds. -/
theorem C6_smoothed_invariant (mode : VisualizerMode) (prev data : List ℚ)
    (isPlaying : Bool) (n : ℕ)
    (hp : ∀ x ∈ prev, 0 ≤ x ∧ x ≤ 255) (hd : ∀ x ∈ data, 0 ≤ x ∧ x ≤ 255) :
    (∀ y ∈ smoothFrame (smoothingFactor mode) isPlaying prev data, 0 ≤ y ∧ y ≤ 255) ∧
    (smoothingFactor mode = 3/10 ∨ smoothingFactor mode = 5/10 ∨
      smoothingFactor mode = 8/10) ∧
    (ensureBuffer prev n).length = n ∧
    (prev.length ≠ n → ensureBuffer prev n = List.replicate n 0) := by
  have hαb : 0 ≤ smoothingFactor mode ∧ smoothingFactor mode ≤ 1 := by
    rcases smoothingFactor_eq mode with h | h | h <;> rw [h] <;> norm_num
  refine ⟨?_, ?_, ?_, ?_⟩
  · intro y hy
    obtain ⟨i, _, rfl⟩ := List.mem_map.mp hy
    dsimp only
    have hpb := readBin_bounds prev hp i
    have htb : 0 ≤ (if isPlaying then readBin data i else 0) ∧
        (if isPlaying then readBin data i else 0) ≤ 255 := by
      by_cases h : isPlaying
      · simpa [h] using readBin_bounds data hd i
      · simp [h]
    set α := smoothingFactor mode
    set p := readBin prev i
    set t : ℚ := if isPlaying then readBin data i else 0
    have e1 : 0 ≤ p * (1 - α) := mul_nonneg hpb.1 (by linarith [hαb.2])
    have e2 : 0 ≤ t * α := mul_nonneg htb.1 hαb.1
    have e3 : 0 ≤ (255 - p) * (1 - α) := mul_nonneg (by linarith [hpb.2]) (by linarith [hαb.2])
    have e4 : 0 ≤ (255 - t) * α := mul_nonneg (by linarith [htb.2]) hαb.1
    constructor
    · nlinarith [e1, e2]
    · nlinarith [e3, e4]
  · exact smoothingFactor_eq mode
  · by_cases h : prev.length = n <;> simp [ensureBuffer, h]
  · intro h
    simp [ensureBuffer, h]

/-- Closed witness for `C6_smoothed_invariant` on a concrete frame. -/
theorem C6_witness :
    (∀ y ∈ smoothFrame (smoothingFactor VisualizerMode.BARS) true
        [0, 255, 100] [255, 0, 7], 0 ≤ y ∧ y ≤ 255) ∧
    (smoothingFactor VisualizerMode.BARS = 3/10 ∨
      smoothingFactor VisualizerMode.BARS = 5/10 ∨
      smoothingFactor VisualizerMode.BARS = 8/10) ∧
    (ensureBuffer [0, 255, 100] 5).length = 5 ∧
    (([(0 : ℚ), 255, 100].length ≠ 5) → ensureBuffer [0, 255, 100] 5 = List.replicate 5 0) :=
  C6_smoothed_invariant VisualizerMode.BARS [0, 255, 100] [255, 0, 7] true 5
    (by decide) (by decide)

/-- C7: with playback stopped, `renderFrame` cancels itself (no further tick
is scheduled) for BARS, SPECTRUM, RINGS, PARTICLES and DNA, while WAVE,
CIRCLE and SPIRAL are exempted by the guard and keep ticking once per frame. -/
theorem C7_pause_suspension :
    frameContinues false VisualizerMode.BARS = false ∧
    frameContinues false VisualizerMode.SPECTRUM = false ∧
    frameContinues false VisualizerMode.RINGS = false ∧
    frameContinues false VisualizerMode.PARTICLES = false ∧
    frameContinues false VisualizerMode.DNA = false ∧
    frameContinues false VisualizerMode.WAVE = true ∧
    frameContinues false VisualizerMode.CIRCLE = true ∧
    frameContinues false VisualizerMode.SPIRAL = true := by
  decide

/-! ## Theorems for the render-mode claims -/

/-- C4: whatever the smoothed spectrum (and time, viewport and opaque
trigonometry) may be, each mode builds a data array of fixed cardinality:
BARS 64, SPECTRUM 96, RINGS 12, SPIRAL 700 (350 per vortex), PARTICLES 150,
DNA 240 strand points plus 15 connectors. -/
theorem C4_fixed_primitive_counts (cosF sinF sqrtF : ℚ → ℚ) (piQ : ℚ)
    (data : List ℚ) (time w h : ℚ) :
    (barsVisualData data).length = 64 ∧
    (spectrumVisualData data).length = 96 ∧
    (ringsData sinF data time w h).length = 12 ∧
    (spiralData cosF sinF sqrtF data time w h).length = 700 ∧
    (particlesData sinF data time w h).length = 150 ∧
    (dnaStrandPoints cosF piQ data time w h).length = 240 ∧
    (dnaConnectors cosF piQ data time w h).length = 15 := by
  have keySpiral : ∀ (f : ℕ → List SpiralPoint),
      (∀ a ∈ List.range 350, (f a).length = 2) →
      ((List.range 350).flatMap f).length = 700 := by
    intro f hf
    rw [length_flatMap_const _ _ 2 hf, List.length_range]
  have keyStrand : ∀ (f : ℕ → List DNAPrim) (p : DNAPrim → Bool),
      (∀ i ∈ List.range 120, ((f i).filter p).length = 2) →
      (((List.range 120).flatMap f).filter p).length = 240 := by
    intro f p hf
    rw [List.filter_flatMap, length_flatMap_const _ _ 2 hf, List.length_range]
  have keyConn : ∀ (f : ℕ → List DNAPrim) (p : DNAPrim → Bool),
      (∀ i ∈ List.range 120, ((f i).filter p).length = if i % 8 = 0 then 1 else 0) →
      (((List.range 120).flatMap f).filter p).length = 15 := by
    intro f p hf
    rw [List.filter_flatMap, List.length_flatMap]
    rw [List.map_congr_left (fun i hi => by rw [Function.comp_apply, hf i hi])]
    decide
  refine ⟨by simp [barsVisualData], by simp [spectrumVisualData], by simp [ringsData],
    ?_, by simp [particlesData], ?_, ?_⟩
  · simp only [spiralData]
    exact keySpiral _ (fun a _ => rfl)
  · simp only [dnaStrandPoints, dnaData]
    exact keyStrand _ _ (fun i _ => by
      by_cases hmod : i % 8 = 0 <;> simp [hmod])
  · simp only [dnaConnectors, dnaData]
    exact keyConn _ _ (fun i _ => by
      by_cases hmod : i % 8 = 0 <;> simp [hmod])

/-- The all-255 smoothed spectrum gives a bass average of exactly 255. -/
theorem circleBassAvg_allMax : circleBassAvg (List.replicate 512 (255 : ℚ)) = 255 := by
  rw [circleBassAvg]
  have h : ∀ i ∈ List.range 10, readBin (List.replicate 512 (255 : ℚ)) i = 255 := by
    intro i hi
    have hi512 : i < (List.replicate 512 (255 : ℚ)).length := by
      simp only [List.length_replicate]
      simp only [List.mem_range] at hi
      omega
    rw [readBin, List.getD_eq_getElem _ _ hi512, List.getElem_replicate]
  rw [List.map_congr_left h, List.map_const', List.sum_replicate, List.length_range]
  norm_num

/-- C8 counterexample: with every bin at 255 and an 800×600 viewport, the
rendered core radius is `(radiusInner + 15) · 0.9 = 133.5`, not the claimed
`radiusInner · 0.9 + 15 = 135`: the 0.9 factor also scales the bass offset. -/
theorem C8_core_radius_counterexample :
    circleCoreRadius (List.replicate 512 (255 : ℚ)) 800 600 ≠
      circleRadiusInner 800 600 * (9/10) + 15 := by
  have hmin : min (800 : ℚ) 600 = 600 := min_eq_right (by norm_num)
  rw [circleCoreRadius, circleCurrentRadius, circleBassAvg_allMax, circleRadiusInner, hmin]
  norm_num

/-- C8 amended: with every bin at 255 and an 800×600 viewport the core
radius equals `(radiusInner + 15) · 0.9` — the maximum bass offset of 15px is
added to `radiusInner` before the whole radius is scaled by 0.9 — which is
`133.5`px. -/
theorem C8_core_radius_amended :
    circleCoreRadius (List.replicate 512 (255 : ℚ)) 800 600 =
      (circleRadiusInner 800 600 + 15) * (9/10) ∧
    circleCoreRadius (List.replicate 512 (255 : ℚ)) 800 600 = 267/2 := by
  have hmin : min (800 : ℚ) 600 = 600 := min_eq_right (by norm_num)
  rw [circleCoreRadius, circleCurrentRadius, circleBassAvg_allMax, circleRadiusInner, hmin]
  norm_num

/-- C10: at the configured 1024-point analysis (512 bins), every bin index
any render mode computes is below 512 — SPIRAL wraps with `% ⌊512/2⌋ = 256`,
the bucketed modes' floor-based steps cap out below the buffer, and RINGS'
window tops out near bin 254 — and a `|| 0`-style read of a missing element
yields 0. -/
theorem C10_bin_reads_in_bounds :
    ((allModeIndices 512).all (fun j => j < 512)) = true ∧
    (∀ (data : List ℚ) (i : ℕ), data.length ≤ i → readBin data i = 0) := by
  constructor
  · rw [List.all_eq_true]
    have hbars : jsFloor ((((512 : ℕ) : ℚ) * (7/10)) / 64) = 5 := by
      have h : (⌊(((512 : ℕ) : ℚ) * (7/10)) / 64⌋ : ℤ) = 5 := by norm_num
      rw [jsFloor, h]
      rfl
    have hspec : jsFloor ((((512 : ℕ) : ℚ) * (8/10)) / 96) = 4 := by
      have h : (⌊(((512 : ℕ) : ℚ) * (8/10)) / 96⌋ : ℤ) = 4 := by norm_num
      rw [jsFloor, h]
      rfl
    have hcirc : jsFloor ((((512 : ℕ) : ℚ) * (6/10)) / 80) = 3 := by
      have h : (⌊(((512 : ℕ) : ℚ) * (6/10)) / 80⌋ : ℤ) = 3 := by norm_num
      rw [jsFloor, h]
      rfl
    have hspir : jsFloor (((512 : ℕ) : ℚ) * (5/10)) = 256 := by
      have h : (⌊((512 : ℕ) : ℚ) * (5/10)⌋ : ℤ) = 256 := by norm_num
      rw [jsFloor, h]
      rfl
    intro j hj
    rw [decide_eq_true_eq]
    simp only [allModeIndices, List.mem_append] at hj
    rcases hj with ((((((hj | hj) | hj) | hj) | hj) | hj) | hj) | hj
    · rw [barsIndices, hbars] at hj
      exact bucketIndices_lt 64 5 512 (by norm_num) j hj
    · rw [spectrumIndices, hspec] at hj
      exact bucketIndices_lt 96 4 512 (by norm_num) j hj
    · rw [circleIndices, hcirc] at hj
      rcases List.mem_append.mp hj with hj | hj
      · have := List.mem_range.mp hj
        omega
      · simp only [List.mem_map, List.mem_range] at hj
        obtain ⟨i, hi, rfl⟩ := hj
        by_cases hlt : i < 40 <;> simp only [hlt, if_true, if_false] <;> omega
    · rw [spiralIndices, hspir] at hj
      simp only [List.mem_map, List.mem_range] at hj
      obtain ⟨i, _, rfl⟩ := hj
      have := Nat.mod_lt i (show 0 < 256 by norm_num)
      omega
    · rcases List.mem_append.mp hj with hj | hj
      · have := List.mem_range.mp hj
        omega
      · simp only [List.mem_map, List.mem_range] at hj
        obtain ⟨i, hi, rfl⟩ := hj
        refine jsFloor_lt ?_ (by norm_num)
        have hiq : (i : ℚ) < 150 := by exact_mod_cast hi
        push_cast
        linarith
    · simp only [ringsIndices, List.mem_flatMap, List.mem_map, List.mem_range] at hj
      obtain ⟨i, hi, jj, hjj, rfl⟩ := hj
      have hfl : jsFloor (((i : ℚ) / 12) * (((512 : ℕ)) : ℚ) * (5/10)) < 256 := by
        refine jsFloor_lt ?_ (by norm_num)
        have hiq : (i : ℚ) < 12 := by exact_mod_cast hi
        push_cast
        linarith
      omega
    · simp only [dnaIndices, List.mem_map, List.mem_range] at hj
      obtain ⟨i, hi, rfl⟩ := hj
      refine jsFloor_lt ?_ (by norm_num)
      have hiq : (i : ℚ) < 120 := by exact_mod_cast hi
      push_cast
      linarith
    · rcases List.mem_append.mp hj with hj | hj
      · have := List.mem_range.mp hj
        omega
      · simp only [List.mem_flatMap, List.mem_map, List.mem_range] at hj
        obtain ⟨petal, _, jj, hjj, rfl⟩ := hj
        omega
  · intro data i h
    rw [readBin, List.getD_eq_default _ _ h]

/-- Closed witness for the guarded-read clause of `C10_bin_reads_in_bounds`. -/
theorem C10_witness :
    ((allModeIndices 512).all (fun j => j < 512)) = true ∧
    readBin [(7 : ℚ)] 3 = 0 :=
  ⟨C10_bin_reads_in_bounds.1, C10_bin_reads_in_bounds.2 [(7 : ℚ)] 3 (by norm_num)⟩

end PenkoTune
